import Mathlib

/-!
# Verification of the weather-station observer system

This file embeds `src/weather_station.py` shallowly in Lean 4 and proves the
specification's claims about it.

Modelling conventions:
* Python numbers are modelled as exact rationals (`ℚ`).  Python's
  `round(x, 2)` is round-half-to-even at two decimal places, modelled by
  `round2` below.
* The sentinel values `float('inf')` / `float('-inf')` used to seed the
  statistics accumulators are modelled by the type `PyF` (a rational extended
  with both infinities), with `min`/`max`/`round` following IEEE behaviour on
  those values.
* Observers are identified by natural numbers (Python object identity).  The
  subject's observer list is a `List Nat`.
* `notifyObservers` iterates the live list exactly as Python's `for ob in
  self.observers` does: by an index into the current list, so mutation during
  iteration shifts later elements.  The possible effect of one observer's
  `update` callback on the registry is captured by `UpdAction`.
-/

/-- Round a rational to the nearest integer, ties to even
(the rounding used by Python's builtin `round`). -/
def rhe (q : ℚ) : ℤ :=
  if q - (⌊q⌋ : ℚ) < 1 / 2 then ⌊q⌋
  else if 1 / 2 < q - (⌊q⌋ : ℚ) then ⌊q⌋ + 1
  else if ⌊q⌋ % 2 = 0 then ⌊q⌋ else ⌊q⌋ + 1

/-- Python's `round(x, 2)`: round half to even at two decimal places. -/
def round2 (q : ℚ) : ℚ :=
  (rhe (100 * q) : ℚ) / 100

/-- A Python float as used by `weather_station.py`: a finite (exact rational)
value, or one of the sentinels `float('inf')` / `float('-inf')` that seed the
statistics accumulators.  (NaN never arises: the accumulators only meet finite
readings through `min`/`max`.) -/
inductive PyF where
  | fin (q : ℚ)
  | pinf
  | ninf
deriving DecidableEq

/-- Python's two-argument `min` on `PyF` values. -/
def PyF.minF : PyF → PyF → PyF
  | .ninf, _ => .ninf
  | .fin _, .ninf => .ninf
  | .pinf, y => y
  | .fin a, .pinf => .fin a
  | .fin a, .fin b => .fin (min a b)

/-- Python's two-argument `max` on `PyF` values. -/
def PyF.maxF : PyF → PyF → PyF
  | .pinf, _ => .pinf
  | .fin _, .pinf => .pinf
  | .ninf, y => y
  | .fin a, .ninf => .fin a
  | .fin a, .fin b => .fin (max a b)

/-- Python's `round(x, 2)` on `PyF` (`round(inf, 2)` returns `inf`). -/
def PyF.roundF : PyF → PyF
  | .fin q => .fin (round2 q)
  | .pinf => .pinf
  | .ninf => .ninf

/-- The rational value of a finite `PyF`.  In `calculate_stats` the min/max
operands of the average are always finite (they are min/max against the
current finite reading), so the value returned on the infinities is never
relevant to a reachable state. -/
def PyF.toQ : PyF → ℚ
  | .fin q => q
  | .pinf => 0
  | .ninf => 0

/-! ## CurrentConditionsDisplay (weather_station.py lines 82-91)

Each display's `display()` returns the updated display state together with
the values it prints (modelling the text written to standard output). -/

/-- The observer state inherited from `WeatherDataObserver.__init__`:
the last-seen reading fields, seeded at zero. -/
structure CurrentConditionsDisplay where
  temperature : ℚ
  humidity : ℚ
  pressure : ℚ
deriving DecidableEq

def CurrentConditionsDisplay.init : CurrentConditionsDisplay :=
  { temperature := 0, humidity := 0, pressure := 0 }

/-- Model of `display`: prints the three stored fields verbatim and mutates nothing. -/
def CurrentConditionsDisplay.display (s : CurrentConditionsDisplay) :
    CurrentConditionsDisplay × (ℚ × ℚ × ℚ) :=
  (s, (s.temperature, s.humidity, s.pressure))

/-- Model of `WeatherDataObserver.update`: store the three fields, then `display`. -/
def CurrentConditionsDisplay.update (_s : CurrentConditionsDisplay)
    (t hu pr : ℚ) : CurrentConditionsDisplay × (ℚ × ℚ × ℚ) :=
  CurrentConditionsDisplay.display { temperature := t, humidity := hu, pressure := pr }

/-! ## StatisticsDisplay (weather_station.py lines 94-140) -/

structure StatisticsDisplay where
  temperature : ℚ
  humidity : ℚ
  pressure : ℚ
  min_temp : PyF
  average_temp : ℚ
  max_temp : PyF
  min_humidity : PyF
  average_humidity : ℚ
  max_humidity : PyF
  min_pressure : PyF
  average_pressure : ℚ
  max_pressure : PyF
deriving DecidableEq

/-- Model of `StatisticsDisplay.__init__`: reading fields zero, minima seeded at
`float('inf')`, maxima at `float('-inf')`, averages at `0`. -/
def StatisticsDisplay.init : StatisticsDisplay :=
  { temperature := 0, humidity := 0, pressure := 0
    min_temp := .pinf, average_temp := 0, max_temp := .ninf
    min_humidity := .pinf, average_humidity := 0, max_humidity := .ninf
    min_pressure := .pinf, average_pressure := 0, max_pressure := .ninf }

/-- One field's accumulator step from `calculate_stats`:
`mn' = round(min(mn, cur), 2)`, `mx' = round(max(mx, cur), 2)`,
`avg = round((mx' + mn') / 2, 2)`. -/
def statField (mn mx : PyF) (cur : ℚ) : PyF × PyF × ℚ :=
  let mn2 := (mn.minF (.fin cur)).roundF
  let mx2 := (mx.maxF (.fin cur)).roundF
  (mn2, mx2, round2 ((mx2.toQ + mn2.toQ) / 2))

/-- Model of `StatisticsDisplay.calculate_stats` (lines 110-121). -/
def StatisticsDisplay.calculate_stats (s : StatisticsDisplay) : StatisticsDisplay :=
  let ft := statField s.min_temp s.max_temp s.temperature
  let fh := statField s.min_humidity s.max_humidity s.humidity
  let fp := statField s.min_pressure s.max_pressure s.pressure
  { s with
    min_temp := ft.1, max_temp := ft.2.1, average_temp := ft.2.2
    min_humidity := fh.1, max_humidity := fh.2.1, average_humidity := fh.2.2
    min_pressure := fp.1, max_pressure := fp.2.1, average_pressure := fp.2.2 }

/-- The nine values `StatisticsDisplay.display` prints. -/
def StatisticsDisplay.report (s : StatisticsDisplay) :
    (PyF × PyF × ℚ) × (PyF × PyF × ℚ) × (PyF × PyF × ℚ) :=
  ((s.min_temp, s.max_temp, s.average_temp),
   (s.min_humidity, s.max_humidity, s.average_humidity),
   (s.min_pressure, s.max_pressure, s.average_pressure))

/-- Model of `display`: recomputes the statistics, then prints them (lines 123-140). -/
def StatisticsDisplay.display (s : StatisticsDisplay) :
    StatisticsDisplay × ((PyF × PyF × ℚ) × (PyF × PyF × ℚ) × (PyF × PyF × ℚ)) :=
  let s2 := s.calculate_stats
  (s2, s2.report)

/-- Model of `WeatherDataObserver.update`: store the three fields, then `display`. -/
def StatisticsDisplay.update (s : StatisticsDisplay) (t hu pr : ℚ) :
    StatisticsDisplay × ((PyF × PyF × ℚ) × (PyF × PyF × ℚ) × (PyF × PyF × ℚ)) :=
  StatisticsDisplay.display { s with temperature := t, humidity := hu, pressure := pr }

/-! ## ForecastDisplay (weather_station.py lines 143-164) -/

structure ForecastDisplay where
  temperature : ℚ
  humidity : ℚ
  pressure : ℚ
  forcast_temp : ℚ
  forcast_humidity : ℚ
  forcast_pressure : ℚ
deriving DecidableEq

def ForecastDisplay.init : ForecastDisplay :=
  { temperature := 0, humidity := 0, pressure := 0
    forcast_temp := 0, forcast_humidity := 0, forcast_pressure := 0 }

/-- Model of `ForecastDisplay.calculate_forcast` (lines 150-153). -/
def ForecastDisplay.calculate_forcast (s : ForecastDisplay) : ForecastDisplay :=
  { s with
    forcast_temp := round2 (s.temperature + 0.11 * s.humidity + 0.22 * s.pressure)
    forcast_humidity := round2 (s.humidity - 0.9 * s.humidity)
    forcast_pressure := round2 (s.pressure + 0.1 * s.temperature - 0.21 * s.pressure) }

/-- Model of `display`: recomputes the forecast, then prints the three values. -/
def ForecastDisplay.display (s : ForecastDisplay) : ForecastDisplay × (ℚ × ℚ × ℚ) :=
  let s2 := s.calculate_forcast
  (s2, (s2.forcast_temp, s2.forcast_humidity, s2.forcast_pressure))

/-- Model of `WeatherDataObserver.update`: store the three fields, then `display`. -/
def ForecastDisplay.update (s : ForecastDisplay) (t hu pr : ℚ) :
    ForecastDisplay × (ℚ × ℚ × ℚ) :=
  ForecastDisplay.display { s with temperature := t, humidity := hu, pressure := pr }

/-! ## Subject and WeatherData (weather_station.py lines 9-78)

Observers are identified by `Nat` (Python object identity; `list.remove` on
these plain objects compares by identity).  An observer's `update` callback
can touch the registry only through `registerObserver`/`removeObserver`;
the observers in the source never do, but claim C2 is about a callback that
does, so the possible registry effect of one `update` call is modelled by
`UpdAction`.  (`remove` covers self- and other-deregistration; the source
has no observer that registers during a callback, and the removed target is
present in every scenario considered here.) -/

/-- What one observer's `update` callback does to the subject's registry. -/
inductive UpdAction where
  | nothing
  | remove (target : Nat)
deriving DecidableEq

/-- Apply a callback's registry effect to the observer list
(`remove` is Python's `list.remove`: drop the first occurrence). -/
def applyAct : UpdAction → List Nat → List Nat
  | .nothing, l => l
  | .remove tgt, l => l.erase tgt

/-- Model of `WeatherData`: the `Subject` base state (the ordered observer list,
lines 9-11) together with the current measurements (lines 58-62). -/
structure WeatherData where
  temperature : ℚ
  humidity : ℚ
  pressure : ℚ
  observers : List Nat
deriving DecidableEq

def WeatherData.init : WeatherData :=
  { temperature := 0, humidity := 0, pressure := 0, observers := [] }

/-- Model of `Subject.registerObserver` (lines 16-19): append to the end of the list,
with no deduplication. -/
def WeatherData.registerObserver (w : WeatherData) (o : Nat) : WeatherData :=
  { w with observers := w.observers ++ [o] }

/-- Python's `list.remove`: scan for the first element equal to the argument
and drop it; `none` when the element is absent (Python raises `ValueError`,
before any mutation). -/
def removeFirst : List Nat → Nat → Option (List Nat)
  | [], _ => Option.none
  | a :: l, x => if a = x then some l else (removeFirst l x).map (a :: ·)

/-- Model of `Subject.removeObserver` (lines 21-24): `self.observers.remove(observer)`,
which raises `ValueError` when the observer is not registered. -/
def WeatherData.removeObserver (w : WeatherData) (o : Nat) :
    Except String WeatherData :=
  match removeFirst w.observers o with
  | some l => Except.ok { w with observers := l }
  | Option.none => Except.error "ValueError"

/-- The body of `for ob in self.observers: ob.update(...)` (lines 67-68)
under Python's live-list iteration semantics: an index steps through the
current list; each visited observer's callback may mutate the list via
`beh`; iteration stops when the index reaches the current length.  Returns
the final observer list and the trace of `update` invocations, each recorded
with the values it received. -/
def notifyGo (beh : Nat → UpdAction) (t hu pr : ℚ) (l : List Nat) (i : Nat) :
    List Nat × List (Nat × ℚ × ℚ × ℚ) :=
  if hi : i < l.length then
    let ob := l.get ⟨i, hi⟩
    let rest := notifyGo beh t hu pr (applyAct (beh ob) l) (i + 1)
    (rest.1, (ob, t, hu, pr) :: rest.2)
  else (l, [])
termination_by l.length - i
decreasing_by
  simp_wf
  have hle : (applyAct (beh (l.get ⟨i, hi⟩)) l).length ≤ l.length := by
    cases beh (l.get ⟨i, hi⟩) with
    | nothing => exact le_rfl
    | remove tgt => exact List.length_erase_le tgt l
  simp only [List.get_eq_getElem] at hle
  omega

/-- Model of `WeatherData.notifyObservers` (lines 64-68): iterate the live observer
list, invoking each visited observer's `update` with the current
measurements. -/
def WeatherData.notifyObservers (beh : Nat → UpdAction) (w : WeatherData) :
    WeatherData × List (Nat × ℚ × ℚ × ℚ) :=
  let r := notifyGo beh w.temperature w.humidity w.pressure w.observers 0
  ({ w with observers := r.1 }, r.2)

/-- Model of `WeatherData.measurementsChanged` (lines 70-71). -/
def WeatherData.measurementsChanged (beh : Nat → UpdAction) (w : WeatherData) :
    WeatherData × List (Nat × ℚ × ℚ × ℚ) :=
  WeatherData.notifyObservers beh w

/-- Model of `WeatherData.setMeasurements` (lines 73-78): store the three new
measurements, then notify. -/
def WeatherData.setMeasurements (beh : Nat → UpdAction) (w : WeatherData)
    (t hu pr : ℚ) : WeatherData × List (Nat × ℚ × ℚ × ℚ) :=
  WeatherData.measurementsChanged beh
    { w with temperature := t, humidity := hu, pressure := pr }

/-- The registry behaviour of every observer in the source: none of the
displays' `update` callbacks touches the registry. -/
def benign : Nat → UpdAction := fun _ => UpdAction.nothing

/-- A scenario for claim C2: observer `0` deregisters itself from inside its
own `update` callback; every other observer leaves the registry alone. -/
def selfRemover : Nat → UpdAction :=
  fun o => if o = 0 then UpdAction.remove 0 else UpdAction.nothing

/-- A sequence of `setMeasurements` calls; returns the final subject state
and the concatenated trace of `update` invocations. -/
def runCalls (beh : Nat → UpdAction) (w : WeatherData) :
    List (ℚ × ℚ × ℚ) → WeatherData × List (Nat × ℚ × ℚ × ℚ)
  | [] => (w, [])
  | (t, hu, pr) :: rest =>
    let r := WeatherData.setMeasurements beh w t hu pr
    let r2 := runCalls beh r.1 rest
    (r2.1, r.2 ++ r2.2)

/-- Replay a trace of `update` invocations against per-observer derived
state: each invocation `(i, t, hu, pr)` applies the observer's `update`
function to observer `i`'s state only. -/
def applyTrace {σ : Type} (upd : σ → ℚ → ℚ → ℚ → σ) :
    (Nat → σ) → List (Nat × ℚ × ℚ × ℚ) → Nat → σ
  | states, [], o => states o
  | states, (i, t, hu, pr) :: tr, o =>
    applyTrace upd (fun x => if x = i then upd (states x) t hu pr else states x) tr o

/-! ## Helper lemmas -/

theorem rhe_intCast (n : ℤ) : rhe (n : ℚ) = n := by
  simp [rhe]

theorem rhe_le (q : ℚ) : rhe q ≤ ⌊q⌋ + 1 := by
  unfold rhe
  split_ifs <;> omega

theorem le_rhe (q : ℚ) : ⌊q⌋ ≤ rhe q := by
  unfold rhe
  split_ifs <;> omega

theorem rhe_mono {a b : ℚ} (hab : a ≤ b) : rhe a ≤ rhe b := by
  have hf : ⌊a⌋ ≤ ⌊b⌋ := Int.floor_mono hab
  rcases eq_or_lt_of_le hf with hfe | hfl
  · unfold rhe
    rw [← hfe]
    have hr : a - (⌊a⌋ : ℚ) ≤ b - (⌊a⌋ : ℚ) := by linarith
    split_ifs <;> first
      | omega
      | (exfalso; linarith)
  · calc rhe a ≤ ⌊a⌋ + 1 := rhe_le a
    _ ≤ ⌊b⌋ := by omega
    _ ≤ rhe b := le_rhe b

theorem round2_mono {a b : ℚ} (hab : a ≤ b) : round2 a ≤ round2 b := by
  unfold round2
  have h1 : rhe (100 * a) ≤ rhe (100 * b) := rhe_mono (by linarith)
  have h2 : ((rhe (100 * a) : ℤ) : ℚ) ≤ ((rhe (100 * b) : ℤ) : ℚ) := by
    exact_mod_cast h1
  linarith

theorem round2_idem (q : ℚ) : round2 (round2 q) = round2 q := by
  unfold round2
  rw [mul_comm, div_mul_cancel₀ _ (by norm_num : (100 : ℚ) ≠ 0), rhe_intCast]

theorem round2_sandwich_lo {x t : ℚ} (h1 : x ≤ t) (h2 : t ≤ round2 x) :
    round2 t = round2 x := by
  refine le_antisymm ?_ (round2_mono h1)
  calc round2 t ≤ round2 (round2 x) := round2_mono h2
  _ = round2 x := round2_idem x

theorem round2_sandwich_hi {x t : ℚ} (h1 : round2 x ≤ t) (h2 : t ≤ x) :
    round2 t = round2 x := by
  refine le_antisymm (round2_mono h2) ?_
  calc round2 x = round2 (round2 x) := (round2_idem x).symm
  _ ≤ round2 t := round2_mono h1

theorem round2_min_idem (m t : ℚ) :
    round2 (min (round2 (min m t)) t) = round2 (min m t) := by
  have hxt : min m t ≤ t := min_le_right m t
  rcases le_total (round2 (min m t)) t with hle | hle
  · rw [min_eq_left hle, round2_idem]
  · rw [min_eq_right hle]
    exact round2_sandwich_lo hxt hle

theorem round2_max_idem (m t : ℚ) :
    round2 (max (round2 (max m t)) t) = round2 (max m t) := by
  have hxt : t ≤ max m t := le_max_right m t
  rcases le_total t (round2 (max m t)) with hle | hle
  · rw [max_eq_left hle, round2_idem]
  · rw [max_eq_right hle]
    exact round2_sandwich_hi hle hxt

theorem notifyGo_nothing (beh : Nat → UpdAction)
    (hb : ∀ o, beh o = UpdAction.nothing) (t hu pr : ℚ) :
    ∀ (k : Nat) (l : List Nat) (i : Nat), l.length - i ≤ k →
      notifyGo beh t hu pr l i = (l, (l.drop i).map fun o => (o, t, hu, pr)) := by
  intro k
  induction k with
  | zero =>
    intro l i hk
    unfold notifyGo
    have hge : ¬ i < l.length := by omega
    rw [dif_neg hge, List.drop_eq_nil_of_le (by omega)]
    simp
  | succ k ih =>
    intro l i hk
    unfold notifyGo
    by_cases hi : i < l.length
    · rw [dif_pos hi]
      simp only [hb, applyAct]
      rw [ih l (i + 1) (by omega)]
      simp only [List.drop_eq_getElem_cons hi, List.map_cons, List.get_eq_getElem]
    · rw [dif_neg hi, List.drop_eq_nil_of_le (by omega)]
      simp

theorem setMeasurements_nothing (beh : Nat → UpdAction)
    (hb : ∀ o, beh o = UpdAction.nothing) (w : WeatherData) (t hu pr : ℚ) :
    WeatherData.setMeasurements beh w t hu pr =
      ({ temperature := t, humidity := hu, pressure := pr,
         observers := w.observers },
       w.observers.map fun o => (o, t, hu, pr)) := by
  unfold WeatherData.setMeasurements WeatherData.measurementsChanged
    WeatherData.notifyObservers
  rw [notifyGo_nothing beh hb t hu pr w.observers.length w.observers 0 (by omega)]
  simp

theorem runCalls_nothing (beh : Nat → UpdAction)
    (hb : ∀ o, beh o = UpdAction.nothing) :
    ∀ (calls : List (ℚ × ℚ × ℚ)) (w : WeatherData),
      (runCalls beh w calls).1.observers = w.observers ∧
      ∀ e ∈ (runCalls beh w calls).2, e.1 ∈ w.observers := by
  intro calls
  induction calls with
  | nil => intro w; simp [runCalls]
  | cons c rest ih =>
    intro w
    obtain ⟨t, hu, pr⟩ := c
    simp only [runCalls, setMeasurements_nothing beh hb]
    constructor
    · exact (ih _).1
    · intro e he
      rcases List.mem_append.mp he with hl | hr
      · obtain ⟨o, ho, rfl⟩ := List.mem_map.mp hl
        exact ho
      · exact (ih ⟨t, hu, pr, w.observers⟩).2 e hr

theorem applyTrace_not_mem {σ : Type} (upd : σ → ℚ → ℚ → ℚ → σ) :
    ∀ (tr : List (Nat × ℚ × ℚ × ℚ)) (states : Nat → σ) (o : Nat),
      (∀ e ∈ tr, e.1 ≠ o) → applyTrace upd states tr o = states o := by
  intro tr
  induction tr with
  | nil => intro states o _; rfl
  | cons e rest ih =>
    intro states o hne
    obtain ⟨i, t, hu, pr⟩ := e
    have h1 : i ≠ o := hne (i, t, hu, pr) (List.mem_cons_self _ _)
    simp only [applyTrace]
    rw [ih _ o fun e he => hne e (List.mem_cons_of_mem _ he)]
    exact if_neg fun h => h1 h.symm

theorem removeFirst_of_not_mem :
    ∀ (l : List Nat) (x : Nat), x ∉ l → removeFirst l x = Option.none := by
  intro l
  induction l with
  | nil => intro x _; rfl
  | cons a l ih =>
    intro x hx
    have hax : a ≠ x := fun h => hx (h ▸ List.mem_cons_self a l)
    simp only [removeFirst, if_neg hax]
    rw [ih x fun h => hx (List.mem_cons_of_mem a h)]
    rfl

theorem removeFirst_of_mem :
    ∀ (l : List Nat) (x : Nat), x ∈ l → removeFirst l x = some (l.erase x) := by
  intro l
  induction l with
  | nil => intro x hx; cases hx
  | cons a l ih =>
    intro x hx
    by_cases hax : a = x
    · subst hax
      simp [removeFirst, List.erase_cons_head]
    · have hxl : x ∈ l := by
        rcases List.mem_cons.mp hx with h | h
        · exact absurd h.symm hax
        · exact h
      rw [List.erase_cons_tail]
      · simp only [removeFirst, if_neg hax, ih x hxl]
        rfl
      · simp [hax]

theorem trace_map_fst (l : List Nat) (t hu pr : ℚ) :
    ((l.map fun o => (o, t, hu, pr)).map Prod.fst) = l := by
  induction l with
  | nil => rfl
  | cons a l ih => simp [ih]

theorem round2_avg_self (q : ℚ) : round2 ((round2 q + round2 q) / 2) = round2 q := by
  have h : (round2 q + round2 q) / 2 = round2 q := by ring
  rw [h, round2_idem]

theorem round2_min_self (t : ℚ) : round2 (min (round2 t) t) = round2 t := by
  have h := round2_min_idem t t
  rwa [min_self] at h

theorem round2_max_self (t : ℚ) : round2 (max (round2 t) t) = round2 t := by
  have h := round2_max_idem t t
  rwa [max_self] at h

theorem statField_idem (mn mx : PyF) (cur : ℚ) :
    statField (statField mn mx cur).1 (statField mn mx cur).2.1 cur =
      statField mn mx cur := by
  cases mn <;> cases mx <;>
    simp [statField, PyF.minF, PyF.maxF, PyF.roundF, PyF.toQ,
      round2_min_idem, round2_max_idem, round2_min_self, round2_max_self]

theorem calculate_stats_idem (s : StatisticsDisplay) :
    s.calculate_stats.calculate_stats = s.calculate_stats := by
  simp only [StatisticsDisplay.calculate_stats, statField_idem]

/-! ## Claim theorems -/

/-- Claim C1: for every registered-observer list (including the empty one) and
every `setMeasurements(t, hu, pr)` call, each registered observer's `update`
is invoked exactly once, in registration (insertion) order, and every
invocation receives exactly the three values passed to `setMeasurements`:
the invocation trace is precisely the observer list, in order, each entry
paired with `(t, hu, pr)`.  (`benign` is the registry behaviour of every
observer in the source: none touches the registry during `update`.) -/
theorem setMeasurements_fanout (w : WeatherData) (t hu pr : ℚ) :
    (WeatherData.setMeasurements benign w t hu pr).2 =
      w.observers.map fun o => (o, t, hu, pr) := by
  rw [setMeasurements_nothing benign (fun _ => rfl)]

/-- Claim C2 (refuting evaluation): `notifyObservers` iterates the live
`self.observers` list, so when observer `0`'s `update` callback deregisters
observer `0` during notification over `[0, 1]`, the iteration index skips
the shifted observer `1`: the trace of `update` calls is `[(0, 1, 2, 3)]`
only, although observer `1` was registered when the notification began.
This contradicts the spec's requirement that the collection not be mutated
while iterating (snapshot before iterating). -/
theorem notify_skips_next_after_self_removal :
    WeatherData.setMeasurements selfRemover ⟨0, 0, 0, [0, 1]⟩ 1 2 3 =
      (⟨1, 2, 3, [1]⟩, [(0, 1, 2, 3)]) := by
  have h1 : notifyGo selfRemover 1 2 3 [1] 1 = ([1], []) := by
    unfold notifyGo
    norm_num
  have h0 : notifyGo selfRemover 1 2 3 [0, 1] 0 = ([1], [(0, 1, 2, 3)]) := by
    unfold notifyGo
    norm_num [selfRemover, applyAct, List.erase, h1,
      List.get_eq_getElem, List.getElem_cons_zero]
  unfold WeatherData.setMeasurements WeatherData.measurementsChanged
    WeatherData.notifyObservers
  simp [h0]

/-- Claim C3: for an observer `O` registered exactly once, after
`removeObserver(O)` succeeds, no subsequent `setMeasurements` call (any
sequence of them) ever invokes `O.update`, and `O`'s derived state — under
any observer state type and update function — is left unchanged by those
calls. -/
theorem removed_observer_silent (w : WeatherData) (O : Nat)
    (hO : w.observers.count O = 1) :
    ∃ w2, WeatherData.removeObserver w O = Except.ok w2 ∧
      ∀ calls : List (ℚ × ℚ × ℚ),
        (∀ e ∈ (runCalls benign w2 calls).2, e.1 ≠ O) ∧
        ∀ (σ : Type) (upd : σ → ℚ → ℚ → ℚ → σ) (states : Nat → σ),
          applyTrace upd states (runCalls benign w2 calls).2 O = states O := by
  have hmem : O ∈ w.observers := by
    have : 0 < w.observers.count O := by omega
    exact List.count_pos_iff.mp this
  have hnot : O ∉ w.observers.erase O := by
    have hc := List.count_erase_self O w.observers
    rw [hO] at hc
    exact List.count_eq_zero.mp hc
  refine ⟨{ w with observers := w.observers.erase O }, ?_, ?_⟩
  · unfold WeatherData.removeObserver
    rw [removeFirst_of_mem w.observers O hmem]
  · intro calls
    have h2 := runCalls_nothing benign (fun _ => rfl) calls
      ⟨w.temperature, w.humidity, w.pressure, w.observers.erase O⟩
    have hne : ∀ e ∈ (runCalls benign
        ⟨w.temperature, w.humidity, w.pressure, w.observers.erase O⟩ calls).2,
        e.1 ≠ O := fun e he heq => hnot (heq ▸ h2.2 e he)
    exact ⟨hne, fun σ upd states => applyTrace_not_mem upd _ states O hne⟩

/-- Closed witness for claim C3 at a station whose only observer is `7`. -/
theorem removed_observer_silent_witness :
    (WeatherData.mk 0 0 0 [7]).observers.count 7 = 1 ∧
    ∃ w2, WeatherData.removeObserver ⟨0, 0, 0, [7]⟩ 7 = Except.ok w2 ∧
      ∀ calls : List (ℚ × ℚ × ℚ),
        (∀ e ∈ (runCalls benign w2 calls).2, e.1 ≠ 7) ∧
        ∀ (σ : Type) (upd : σ → ℚ → ℚ → ℚ → σ) (states : Nat → σ),
          applyTrace upd states (runCalls benign w2 calls).2 7 = states 7 :=
  ⟨by decide, removed_observer_silent ⟨0, 0, 0, [7]⟩ 7 (by decide)⟩

/-- Claim C4: `registerObserver` appends with no deduplication, so after
registering the same observer `o` twice, each `setMeasurements` call invokes
`o`'s `update` exactly twice more than before; `removeObserver` removes only
the first occurrence, so after one removal the twice-registered observer
still receives exactly one more `update` per call than before (in
particular, an observer not previously present receives two, then one). -/
theorem duplicate_registration_counts (w : WeatherData) (o : Nat) (t hu pr : ℚ) :
    (((WeatherData.setMeasurements benign
        ((w.registerObserver o).registerObserver o) t hu pr).2.map Prod.fst).count o
      = w.observers.count o + 2) ∧
    ∃ w3, ((w.registerObserver o).registerObserver o).removeObserver o = Except.ok w3 ∧
      w3.observers = (w.observers ++ [o, o]).erase o ∧
      ((WeatherData.setMeasurements benign w3 t hu pr).2.map Prod.fst).count o
        = w.observers.count o + 1 := by
  have hobs : ((w.registerObserver o).registerObserver o).observers
      = w.observers ++ [o, o] := by
    simp [WeatherData.registerObserver]
  have hmem : o ∈ ((w.registerObserver o).registerObserver o).observers := by
    rw [hobs]
    simp
  constructor
  · rw [setMeasurements_nothing benign (fun _ => rfl)]
    simp only [trace_map_fst, hobs]
    simp [List.count_append]
  · refine ⟨{ (w.registerObserver o).registerObserver o with
      observers := ((w.registerObserver o).registerObserver o).observers.erase o },
      ?_, ?_, ?_⟩
    · unfold WeatherData.removeObserver
      rw [removeFirst_of_mem _ o hmem]
    · rw [hobs]
    · rw [setMeasurements_nothing benign (fun _ => rfl)]
      simp only [trace_map_fst, hobs]
      have hc := List.count_erase_self o (w.observers ++ [o, o])
      have hc2 : (w.observers ++ [o, o]).count o = w.observers.count o + 2 := by
        simp [List.count_append]
      rw [hc2] at hc
      rw [hc]
      omega

/-- Claim C5: feeding the driver's reading sequence (temperatures
80, 82, 78) to a fresh `StatisticsDisplay`, the temperature (min, max) pair
after each update/display step is (80,80), (80,82), (78,82), and the
displayed average is the min/max midpoint rounded to two decimals:
80, 81, 80. -/
theorem stats_sequence_law :
    ((StatisticsDisplay.update StatisticsDisplay.init 80 65 30.4).1.min_temp,
     (StatisticsDisplay.update StatisticsDisplay.init 80 65 30.4).1.max_temp,
     (StatisticsDisplay.update StatisticsDisplay.init 80 65 30.4).1.average_temp)
      = (PyF.fin 80, PyF.fin 80, 80) ∧
    (((StatisticsDisplay.update
        (StatisticsDisplay.update StatisticsDisplay.init 80 65 30.4).1
        82 70 29.2).1.min_temp,
      (StatisticsDisplay.update
        (StatisticsDisplay.update StatisticsDisplay.init 80 65 30.4).1
        82 70 29.2).1.max_temp,
      (StatisticsDisplay.update
        (StatisticsDisplay.update StatisticsDisplay.init 80 65 30.4).1
        82 70 29.2).1.average_temp)
      = (PyF.fin 80, PyF.fin 82, 81)) ∧
    (((StatisticsDisplay.update
        (StatisticsDisplay.update
          (StatisticsDisplay.update StatisticsDisplay.init 80 65 30.4).1
          82 70 29.2).1
        78 90 29.2).1.min_temp,
      (StatisticsDisplay.update
        (StatisticsDisplay.update
          (StatisticsDisplay.update StatisticsDisplay.init 80 65 30.4).1
          82 70 29.2).1
        78 90 29.2).1.max_temp,
      (StatisticsDisplay.update
        (StatisticsDisplay.update
          (StatisticsDisplay.update StatisticsDisplay.init 80 65 30.4).1
          82 70 29.2).1
        78 90 29.2).1.average_temp)
      = (PyF.fin 78, PyF.fin 82, 80)) := by
  norm_num [StatisticsDisplay.update, StatisticsDisplay.display,
    StatisticsDisplay.calculate_stats, StatisticsDisplay.init, statField,
    PyF.minF, PyF.maxF, PyF.roundF, PyF.toQ, min_def, max_def, round2, rhe]

/-- Claim C6 (counterexample): the claim "after exactly one update/display
cycle each field satisfies min == max == v" fails for a reading with more
than two decimal places: for v = 1/8 = 0.125, `calculate_stats` stores
`round(0.125, 2) = 0.12` (banker's rounding), not 0.125. -/
theorem stats_first_reading_counterexample :
    (StatisticsDisplay.update StatisticsDisplay.init (1 / 8) 0 0).1.min_temp
      ≠ PyF.fin (1 / 8) := by
  norm_num [StatisticsDisplay.update, StatisticsDisplay.display,
    StatisticsDisplay.calculate_stats, StatisticsDisplay.init, statField,
    PyF.minF, PyF.maxF, PyF.roundF, PyF.toQ, min_def, max_def, round2, rhe]

/-- Claim C6 (amended): the accumulators are seeded at +inf (min) and
-inf (max) before the first reading, and for every reading (t, hu, pr),
after exactly one update/display cycle each field satisfies
min == max == the field's value rounded to two decimals, and
average == that same rounded value (hence exactly the reading's value
whenever it has at most two decimal places). -/
theorem stats_seeding_and_first_reading (t hu pr : ℚ) :
    (StatisticsDisplay.init.min_temp = PyF.pinf ∧
     StatisticsDisplay.init.max_temp = PyF.ninf ∧
     StatisticsDisplay.init.min_humidity = PyF.pinf ∧
     StatisticsDisplay.init.max_humidity = PyF.ninf ∧
     StatisticsDisplay.init.min_pressure = PyF.pinf ∧
     StatisticsDisplay.init.max_pressure = PyF.ninf) ∧
    ((StatisticsDisplay.update StatisticsDisplay.init t hu pr).1.min_temp
        = PyF.fin (round2 t) ∧
     (StatisticsDisplay.update StatisticsDisplay.init t hu pr).1.max_temp
        = PyF.fin (round2 t) ∧
     (StatisticsDisplay.update StatisticsDisplay.init t hu pr).1.average_temp
        = round2 t ∧
     (StatisticsDisplay.update StatisticsDisplay.init t hu pr).1.min_humidity
        = PyF.fin (round2 hu) ∧
     (StatisticsDisplay.update StatisticsDisplay.init t hu pr).1.max_humidity
        = PyF.fin (round2 hu) ∧
     (StatisticsDisplay.update StatisticsDisplay.init t hu pr).1.average_humidity
        = round2 hu ∧
     (StatisticsDisplay.update StatisticsDisplay.init t hu pr).1.min_pressure
        = PyF.fin (round2 pr) ∧
     (StatisticsDisplay.update StatisticsDisplay.init t hu pr).1.max_pressure
        = PyF.fin (round2 pr) ∧
     (StatisticsDisplay.update StatisticsDisplay.init t hu pr).1.average_pressure
        = round2 pr) := by
  refine ⟨⟨rfl, rfl, rfl, rfl, rfl, rfl⟩, ?_⟩
  simp [StatisticsDisplay.update, StatisticsDisplay.display,
    StatisticsDisplay.calculate_stats, StatisticsDisplay.init, statField,
    PyF.minF, PyF.maxF, PyF.roundF, PyF.toQ, round2_avg_self, round2_idem]

/-- Claim C7: `ForecastDisplay` computes from the current reading only (the
result of `update` is independent of any prior state `s`), with
forecastTemp = round(t + 0.11 hu + 0.22 pr, 2),
forecastHumidity = round(hu - 0.9 hu, 2), and
forecastPressure = round(pr + 0.1 t - 0.21 pr, 2); in particular the reading
(78, 90, 29.2) yields exactly (94.32, 9.0, 30.87). -/
theorem forecast_formulas (s : ForecastDisplay) (t hu pr : ℚ) :
    ((ForecastDisplay.update s t hu pr).2 =
      (round2 (t + 0.11 * hu + 0.22 * pr), round2 (hu - 0.9 * hu),
       round2 (pr + 0.1 * t - 0.21 * pr))) ∧
    (ForecastDisplay.update s 78 90 29.2).2 = (94.32, 9, 30.87) := by
  constructor
  · simp [ForecastDisplay.update, ForecastDisplay.display,
      ForecastDisplay.calculate_forcast]
  · norm_num [ForecastDisplay.update, ForecastDisplay.display,
      ForecastDisplay.calculate_forcast, round2, rhe]

/-- Claim C8: for each of the three displays, calling `display()` again
without an intervening `update` returns the same state and prints the same
output: the display pipeline is idempotent from every state (`calculate_stats`
re-rounds values that are already rounded, so the second pass changes
nothing). -/
theorem display_idempotent :
    (∀ s : CurrentConditionsDisplay,
      CurrentConditionsDisplay.display (CurrentConditionsDisplay.display s).1
        = CurrentConditionsDisplay.display s) ∧
    (∀ s : StatisticsDisplay,
      StatisticsDisplay.display (StatisticsDisplay.display s).1
        = StatisticsDisplay.display s) ∧
    (∀ s : ForecastDisplay,
      ForecastDisplay.display (ForecastDisplay.display s).1
        = ForecastDisplay.display s) := by
  refine ⟨fun s => rfl, fun s => ?_, fun s => ?_⟩
  · simp only [StatisticsDisplay.display]
    rw [calculate_stats_idem]
  · simp only [ForecastDisplay.display]
    rfl

/-- Claim C9: `removeObserver` with an observer that is not registered
raises `ValueError` (from `list.remove`) instead of silently succeeding;
no modified subject state is produced (Python's `list.remove` raises before
mutating, so the collection is unchanged). -/
theorem remove_absent_observer_raises (w : WeatherData) (o : Nat)
    (ho : o ∉ w.observers) :
    WeatherData.removeObserver w o = Except.error "ValueError" := by
  unfold WeatherData.removeObserver
  rw [removeFirst_of_not_mem w.observers o ho]

/-- Closed witness for claim C9: removing `3` from a station whose
observers are `[1, 2]`. -/
theorem remove_absent_observer_raises_witness :
    (3 ∉ (WeatherData.mk 0 0 0 [1, 2]).observers) ∧
    WeatherData.removeObserver ⟨0, 0, 0, [1, 2]⟩ 3 = Except.error "ValueError" :=
  ⟨by decide, remove_absent_observer_raises ⟨0, 0, 0, [1, 2]⟩ 3 (by decide)⟩

/-- Claim C10: provided no observer's `update` callback touches the registry
(the behaviour of every observer in the source), `setMeasurements` and
`notifyObservers` leave the observer list exactly as it was; only
`registerObserver` and `removeObserver` change it. -/
theorem setMeasurements_preserves_observers (beh : Nat → UpdAction)
    (hb : ∀ o, beh o = UpdAction.nothing) (w : WeatherData) (t hu pr : ℚ) :
    (WeatherData.setMeasurements beh w t hu pr).1.observers = w.observers ∧
    (WeatherData.notifyObservers beh w).1.observers = w.observers := by
  constructor
  · rw [setMeasurements_nothing beh hb]
  · unfold WeatherData.notifyObservers
    rw [notifyGo_nothing beh hb w.temperature w.humidity w.pressure
      w.observers.length w.observers 0 (by omega)]

/-- Closed witness for claim C10 at a station with observers `[4, 5]`. -/
theorem setMeasurements_preserves_observers_witness :
    (∀ o, benign o = UpdAction.nothing) ∧
    ((WeatherData.setMeasurements benign ⟨0, 0, 0, [4, 5]⟩ 9 8 7).1.observers
        = [4, 5] ∧
     (WeatherData.notifyObservers benign ⟨0, 0, 0, [4, 5]⟩).1.observers
        = [4, 5]) :=
  ⟨fun _ => rfl,
   setMeasurements_preserves_observers benign (fun _ => rfl) ⟨0, 0, 0, [4, 5]⟩ 9 8 7⟩
